import Mathlib

/-!
Verification of the GlobeSync travel-planning pipeline core
(`orchestrator.py`, with handler material from `agents.py` and
`models.py`), shallowly embedded in Lean 4.

Modelling conventions:
* Python `Dict[str, Any]` payload blobs are modelled as opaque `String`
  blobs; the empty dict `{}` is the empty string `""`.  Where the code
  reads `response.data.get(key, {})` we model `data` as an association
  list `List (String × String)` with a `get`-with-default operation.
* Each LangGraph node body is a total Lean function.  The `try/except`
  around the `await agent.process(state)` call is modelled by an input
  `HandlerResult`: either the `AgentResponse` the agent returned, or the
  message of the exception that the call raised.
* The LangGraph `StateGraph` is embedded as the node-name successor
  function written down by the `add_edge` calls of `_create_workflow`,
  plus the entry point; the executor iterates that successor function.
* `Annotated[List …, operator.add]` channels append; plain channels are
  last-value-wins, applied per returned update key.  The summary node
  returns the keys `trip_summary` / `final_status`, which are kept as
  last-value channels of the run result.
* Database writes (`insert_one`) and timestamps are effects outside the
  in-memory state; the possibility that an `insert_one` raises is an
  explicit `Option String` input where a claim depends on it.
-/

namespace GlobeSync

/-- `models.TripRequest`: destination, dates (as integer timestamps),
budget, user id; preferences omitted (opaque, unread by the core). -/
structure TripRequest where
  user_id : String
  destination : String
  start_date : Int
  end_date : Int
  budget : Int
  deriving Repr, DecidableEq

/-- `models.AgentResponse`: agent name, status string, payload dict
(association list of opaque blobs), optional next actions.  The
timestamp is an external effect and is omitted. -/
structure AgentResponse where
  agent_name : String
  status : String
  data : List (String × String)
  next_actions : Option (List String) := none
  deriving Repr, DecidableEq

/-- Python `d.get(key, {})` on a payload dict: first binding wins,
missing key yields the empty blob. -/
def dictGet (d : List (String × String)) (key : String) : String :=
  match d.find? (fun p => p.1 == key) with
  | some p => p.2
  | none => ""

/-- `TravelPlanningState` (the LangGraph `TypedDict`), plus the two
extra keys (`trip_summary`, `final_status`) that `_summary_node`
returns in its update.  List channels are `operator.add` (append);
everything else is last-value. -/
structure TravelPlanningState where
  trip_request : TripRequest
  weather_data : String
  route_details : String
  events_data : String
  budget_analysis : String
  itinerary : String
  flight_details : String
  train_details : String
  calendar_data : String
  agent_responses : List AgentResponse
  current_step : String
  completed_agents : List String
  errors : List String
  trip_summary : Option (List (String × String)) := none
  final_status : String := ""
  deriving Repr, DecidableEq

/-- The outcome of `await agents.<x>_agent.process(state)` as seen by a
node's `try` block: the returned response, or the raised exception's
message `str(e)`.  For the summary node, `exn m` stands for its own
`try` body raising with message `m`. -/
inductive HandlerResult where
  | ok (response : AgentResponse)
  | exn (msg : String)
  deriving Repr, DecidableEq

/-- The nine stages of the pipeline, named as in the spec. -/
inductive Stage where
  | weather | route | events | budget | itinerary
  | flights | trains | calendar | summary
  deriving Repr, DecidableEq

/-- The LangGraph node name each stage was registered under in
`_create_workflow` (`workflow.add_node(...)`). -/
def nodeName : Stage → String
  | .weather => "weather_analysis"
  | .route => "route_planning"
  | .events => "event_discovery"
  | .budget => "budget_optimization"
  | .itinerary => "itinerary_creation"
  | .flights => "flight_search"
  | .trains => "train_search"
  | .calendar => "calendar_sync"
  | .summary => "trip_summary"

/-- The successor function determined by the `workflow.add_edge` calls:
a linear chain ending at `END` after `trip_summary`.  It consults only
the node name, never the state or outcome (no conditional edges). -/
def nextNode : String → Option String
  | "weather_analysis" => some "route_planning"
  | "route_planning" => some "event_discovery"
  | "event_discovery" => some "budget_optimization"
  | "budget_optimization" => some "itinerary_creation"
  | "itinerary_creation" => some "flight_search"
  | "flight_search" => some "train_search"
  | "train_search" => some "calendar_sync"
  | "calendar_sync" => some "trip_summary"
  | "trip_summary" => none
  | _ => none

/-- `workflow.set_entry_point("weather_analysis")`. -/
def entryPoint : String := "weather_analysis"

/-- The agent-registry name used by stage `k`'s node: the name it
appends to `completed_agents` and uses in its error string. -/
def agentName : Stage → String
  | .weather => "weather_agent"
  | .route => "maps_agent"
  | .events => "events_agent"
  | .budget => "budget_agent"
  | .itinerary => "itinerary_agent"
  | .flights => "flights_agent"
  | .trains => "trains_agent"
  | .calendar => "calendar_agent"
  | .summary => "summary_node"

/-- The capitalised label in each node's formatted error string
(`f"Weather agent error: ..."` etc.). -/
def errorLabel : Stage → String
  | .weather => "Weather agent error: "
  | .route => "Maps agent error: "
  | .events => "Events agent error: "
  | .budget => "Budget agent error: "
  | .itinerary => "Itinerary agent error: "
  | .flights => "Flights agent error: "
  | .trains => "Trains agent error: "
  | .calendar => "Calendar agent error: "
  | .summary => "Summary generation error: "

/-- The `current_step` token prefix used by stage `k`'s node
(`"weather_completed"` / `"weather_error"` etc.). -/
def stepName : Stage → String
  | .weather => "weather"
  | .route => "route"
  | .events => "events"
  | .budget => "budget"
  | .itinerary => "itinerary"
  | .flights => "flights"
  | .trains => "trains"
  | .calendar => "calendar"
  | .summary => "summary"

/-- The key each agent node extracts from `response.data` to fill its
owned scalar field (`response.data.get(<key>, {})`). -/
def payloadKey : Stage → String
  | .weather => "weather_data"
  | .route => "route_details"
  | .events => "events"
  | .budget => "budget_breakdown"
  | .itinerary => "itinerary"
  | .flights => "flight_recommendations"
  | .trains => "train_recommendations"
  | .calendar => "calendar_events"
  | .summary => ""

/-- Read stage `k`'s owned scalar field of the state. -/
def ownedField (k : Stage) (s : TravelPlanningState) : String :=
  match k with
  | .weather => s.weather_data
  | .route => s.route_details
  | .events => s.events_data
  | .budget => s.budget_analysis
  | .itinerary => s.itinerary
  | .flights => s.flight_details
  | .trains => s.train_details
  | .calendar => s.calendar_data
  | .summary => ""

/-- Overwrite stage `k`'s owned scalar field (last-value channel). -/
def setOwnedField (k : Stage) (v : String) (s : TravelPlanningState) :
    TravelPlanningState :=
  match k with
  | .weather => { s with weather_data := v }
  | .route => { s with route_details := v }
  | .events => { s with events_data := v }
  | .budget => { s with budget_analysis := v }
  | .itinerary => { s with itinerary := v }
  | .flights => { s with flight_details := v }
  | .trains => { s with train_details := v }
  | .calendar => { s with calendar_data := v }
  | .summary => s

/-- The summary dict built inside `_summary_node`'s `try` block from
the accumulated state (field order as in the source; timestamp-valued
entries omitted as external effects). -/
def buildSummary (s : TravelPlanningState) : List (String × String) :=
  [ ("destination", s.trip_request.destination),
    ("dates", toString s.trip_request.start_date ++ " to " ++
      toString s.trip_request.end_date),
    ("budget", toString s.trip_request.budget),
    ("duration", toString (s.trip_request.end_date - s.trip_request.start_date)),
    ("weather_summary", s.weather_data),
    ("route_summary", s.route_details),
    ("events_summary", s.events_data),
    ("budget_summary", s.budget_analysis),
    ("itinerary_summary", s.itinerary),
    ("flight_summary", s.flight_details),
    ("train_summary", s.train_details),
    ("calendar_summary", s.calendar_data),
    ("agent_count", toString s.agent_responses.length),
    ("completed_agents", String.intercalate "," s.completed_agents),
    ("status", "completed") ]

/-- One agent node of `orchestrator.py` (`_weather_node` …
`_calendar_node`), applied to the current state with the outcome `r` of
its `process` call, already merged per the channel rules: on success
overwrite the owned scalar with `response.data.get(key, {})`, append
the response, the agent name and the `<stage>_completed` step; on a
raised exception append only the formatted error string and set the
`<stage>_error` step. -/
def agentNodeApply (k : Stage) (r : HandlerResult)
    (s : TravelPlanningState) : TravelPlanningState :=
  match r with
  | .ok response =>
      let s' := setOwnedField k (dictGet response.data (payloadKey k)) s
      { s' with
        agent_responses := s'.agent_responses ++ [response],
        completed_agents := s'.completed_agents ++ [agentName k],
        current_step := stepName k ++ "_completed" }
  | .exn m =>
      { s with
        errors := s.errors ++ [errorLabel k ++ m],
        current_step := stepName k ++ "_error" }

/-- `_summary_node`, merged: on success store the built summary dict,
set `current_step = "completed"` and `final_status = "success"`; if its
`try` body raises (e.g. the `insert_one`), append the formatted error
and set `current_step = "summary_error"`, `final_status = "error"`. -/
def summaryNodeApply (r : HandlerResult) (s : TravelPlanningState) :
    TravelPlanningState :=
  match r with
  | .ok _ =>
      { s with
        trip_summary := some (buildSummary s),
        current_step := "completed",
        final_status := "success" }
  | .exn m =>
      { s with
        errors := s.errors ++ [errorLabel .summary ++ m],
        current_step := "summary_error",
        final_status := "error" }

/-- A run's environment: for each stage, what its `process` call (for
`summary`: its own `try` body) does on this run. -/
def Behavior : Type := Stage → HandlerResult

/-- Dispatch a registered node name to its node function. -/
def runNode (beh : Behavior) (name : String)
    (s : TravelPlanningState) : TravelPlanningState :=
  if name = nodeName .weather then agentNodeApply .weather (beh .weather) s
  else if name = nodeName .route then agentNodeApply .route (beh .route) s
  else if name = nodeName .events then agentNodeApply .events (beh .events) s
  else if name = nodeName .budget then agentNodeApply .budget (beh .budget) s
  else if name = nodeName .itinerary then agentNodeApply .itinerary (beh .itinerary) s
  else if name = nodeName .flights then agentNodeApply .flights (beh .flights) s
  else if name = nodeName .trains then agentNodeApply .trains (beh .trains) s
  else if name = nodeName .calendar then agentNodeApply .calendar (beh .calendar) s
  else if name = nodeName .summary then summaryNodeApply (beh .summary) s
  else s

/-- The compiled graph's execution loop: run the current node, then
follow the (unconditional) edge; fuelled to stay total.  Returns the
final state and the list of node names visited, in visit order. -/
def runFrom (beh : Behavior) : Nat → TravelPlanningState → String →
    TravelPlanningState × List String
  | 0, s, _ => (s, [])
  | fuel + 1, s, name =>
      let s' := runNode beh name s
      match nextNode name with
      | none => (s', [name])
      | some name' =>
          let p := runFrom beh fuel s' name'
          (p.1, name :: p.2)

/-- `initial_state` as built in `plan_trip`: empty blobs, empty lists,
`current_step = "starting"`. -/
def initialState (request : TripRequest) : TravelPlanningState :=
  { trip_request := request,
    weather_data := "", route_details := "", events_data := "",
    budget_analysis := "", itinerary := "", flight_details := "",
    train_details := "", calendar_data := "",
    agent_responses := [], current_step := "starting",
    completed_agents := [], errors := [] }

/-- `self.workflow.ainvoke(initial_state, config)`: run the graph from
the entry point to `END` (fuel 9 suffices for the 9-node chain). -/
def ainvoke (beh : Behavior) (request : TripRequest) :
    TravelPlanningState :=
  (runFrom beh 9 (initialState request) entryPoint).1

/-- The node names visited by a run, in order. -/
def visitedNodes (beh : Behavior) (request : TripRequest) :
    List String :=
  (runFrom beh 9 (initialState request) entryPoint).2

/-- The pipeline order the spec names the stages in. -/
def pipelineStages : List Stage :=
  [.weather, .route, .events, .budget, .itinerary,
   .flights, .trains, .calendar, .summary]

/-- The error string stage `k` contributes on this run, if any. -/
def errEntry (beh : Behavior) (k : Stage) : Option String :=
  match beh k with
  | .ok _ => none
  | .exn m => some (errorLabel k ++ m)

/-- The `agent_responses` record stage `k` contributes on this run, if
any (the summary node never appends one). -/
def respEntry (beh : Behavior) (k : Stage) : Option AgentResponse :=
  match k, beh k with
  | .summary, _ => none
  | _, .ok r => some r
  | _, .exn _ => none

/-- The `completed_agents` entry stage `k` contributes on this run, if
any (the summary node never appends one). -/
def completedEntry (beh : Behavior) (k : Stage) : Option String :=
  match k, beh k with
  | .summary, _ => none
  | _, .ok _ => some (agentName k)
  | _, .exn _ => none

-- The run is the composition of the nine node applications, in the
-- order fixed by the entry point and the edges.
lemma ainvoke_eq (beh : Behavior) (req : TripRequest) :
    ainvoke beh req =
      summaryNodeApply (beh .summary)
        (agentNodeApply .calendar (beh .calendar)
          (agentNodeApply .trains (beh .trains)
            (agentNodeApply .flights (beh .flights)
              (agentNodeApply .itinerary (beh .itinerary)
                (agentNodeApply .budget (beh .budget)
                  (agentNodeApply .events (beh .events)
                    (agentNodeApply .route (beh .route)
                      (agentNodeApply .weather (beh .weather)
                        (initialState req))))))))) := by
  simp [ainvoke, runFrom, entryPoint, nextNode, runNode, nodeName]

lemma visitedNodes_eq (beh : Behavior) (req : TripRequest) :
    visitedNodes beh req = pipelineStages.map nodeName := by
  simp [visitedNodes, runFrom, entryPoint, nextNode, pipelineStages,
    nodeName]

lemma agentNodeApply_errors (k : Stage) (r : HandlerResult)
    (s : TravelPlanningState) :
    (agentNodeApply k r s).errors =
      s.errors ++ (match r with
        | .ok _ => []
        | .exn m => [errorLabel k ++ m]) := by
  cases k <;> cases r <;> simp [agentNodeApply, setOwnedField]

lemma agentNodeApply_responses (k : Stage) (r : HandlerResult)
    (s : TravelPlanningState) :
    (agentNodeApply k r s).agent_responses =
      s.agent_responses ++ (match r with
        | .ok resp => [resp]
        | .exn _ => []) := by
  cases k <;> cases r <;> simp [agentNodeApply, setOwnedField]

lemma agentNodeApply_completed (k : Stage) (r : HandlerResult)
    (s : TravelPlanningState) :
    (agentNodeApply k r s).completed_agents =
      s.completed_agents ++ (match r with
        | .ok _ => [agentName k]
        | .exn _ => []) := by
  cases k <;> cases r <;> simp [agentNodeApply, setOwnedField]

/-- Stage `k`'s node function (`_weather_node` … `_summary_node`),
already merged into the state. -/
def stageApply : Stage → HandlerResult → TravelPlanningState →
    TravelPlanningState
  | .summary => summaryNodeApply
  | k => agentNodeApply k

lemma stageApply_errors (k : Stage) (r : HandlerResult)
    (s : TravelPlanningState) :
    (stageApply k r s).errors =
      s.errors ++ (match r with
        | .ok _ => []
        | .exn m => [errorLabel k ++ m]) := by
  cases k <;> cases r <;>
    simp [stageApply, summaryNodeApply, agentNodeApply, setOwnedField]

lemma stageApply_exn_current_step (k : Stage) (m : String)
    (s : TravelPlanningState) :
    (stageApply k (.exn m) s).current_step = stepName k ++ "_error" := by
  cases k <;>
    simp [stageApply, summaryNodeApply, agentNodeApply, stepName]

-- Closed form for the three accumulating channels of a full run: each
-- channel is the concatenation, in pipeline order, of each stage's own
-- contribution.
lemma run_errors (beh : Behavior) (req : TripRequest) :
    (ainvoke beh req).errors = pipelineStages.filterMap (errEntry beh) := by
  rw [ainvoke_eq]
  cases hs : beh .summary <;>
    simp [summaryNodeApply, agentNodeApply_errors, pipelineStages,
      errEntry, hs, List.filterMap, initialState] <;>
    cases beh .weather <;> cases beh .route <;> cases beh .events <;>
    cases beh .budget <;> cases beh .itinerary <;> cases beh .flights <;>
    cases beh .trains <;> cases beh .calendar <;> simp

lemma run_responses (beh : Behavior) (req : TripRequest) :
    (ainvoke beh req).agent_responses =
      pipelineStages.filterMap (respEntry beh) := by
  rw [ainvoke_eq]
  cases hs : beh .summary <;>
    simp [summaryNodeApply, agentNodeApply_responses, pipelineStages,
      respEntry, hs, List.filterMap, initialState] <;>
    cases beh .weather <;> cases beh .route <;> cases beh .events <;>
    cases beh .budget <;> cases beh .itinerary <;> cases beh .flights <;>
    cases beh .trains <;> cases beh .calendar <;> simp

lemma run_completed (beh : Behavior) (req : TripRequest) :
    (ainvoke beh req).completed_agents =
      pipelineStages.filterMap (completedEntry beh) := by
  rw [ainvoke_eq]
  cases hs : beh .summary <;>
    simp [summaryNodeApply, agentNodeApply_completed, pipelineStages,
      completedEntry, hs, List.filterMap, initialState] <;>
    cases beh .weather <;> cases beh .route <;> cases beh .events <;>
    cases beh .budget <;> cases beh .itinerary <;> cases beh .flights <;>
    cases beh .trains <;> cases beh .calendar <;> simp

lemma agentNodeApply_final_status (k : Stage) (r : HandlerResult)
    (s : TravelPlanningState) :
    (agentNodeApply k r s).final_status = s.final_status := by
  cases k <;> cases r <;> simp [agentNodeApply, setOwnedField]

lemma run_final_status (beh : Behavior) (req : TripRequest) :
    (ainvoke beh req).final_status =
      match beh .summary with
      | .ok _ => "success"
      | .exn _ => "error" := by
  rw [ainvoke_eq]
  cases beh .summary <;>
    simp [summaryNodeApply, agentNodeApply_final_status, initialState]

lemma run_current_step (beh : Behavior) (req : TripRequest) :
    (ainvoke beh req).current_step =
      match beh .summary with
      | .ok _ => "completed"
      | .exn _ => "summary_error" := by
  rw [ainvoke_eq]
  cases beh .summary <;> simp [summaryNodeApply]

lemma agentNodeApply_trip_summary (k : Stage) (r : HandlerResult)
    (s : TravelPlanningState) :
    (agentNodeApply k r s).trip_summary = s.trip_summary := by
  cases k <;> cases r <;> simp [agentNodeApply, setOwnedField]

-- ---------------- Concrete behaviours for scenario claims ----------------

/-- A minimal successful response from stage `k`'s agent. -/
def okResp (k : Stage) : AgentResponse :=
  { agent_name := agentName k, status := "completed", data := [] }

/-- Scenario 1: every handler succeeds (and the summary body runs
without raising). -/
def behAllOk : Behavior := fun k => .ok (okResp k)

/-- Scenario 2 shape: stage `j`'s `process` call raises `m`, every
other handler succeeds. -/
def behOneFail (j : Stage) (m : String) : Behavior :=
  fun k => if k = j then .exn m else .ok (okResp k)

/-- Every stage raises `m`, the summary body included. -/
def behAllFail (m : String) : Behavior := fun _ => .exn m

/-- A sample trip request for concrete runs. -/
def sampleRequest : TripRequest :=
  { user_id := "u1", destination := "Paris", start_date := 0,
    end_date := 3, budget := 1000 }

-- ---------------- agents.py: WeatherAgent.process ----------------

/-- What `WeatherAgent.process`'s `try` body does on one call: either
it completes (weather blob from the tool, recommendation text from the
LLM) or some step inside it raises with message `msg`. -/
inductive AgentWork where
  | succ (weather_blob recommendations : String)
  | fail (msg : String)
  deriving Repr, DecidableEq

/-- `agents.WeatherAgent.process`: the whole body is wrapped in
`try/except Exception`; an internal failure is caught and returned as a
normal `AgentResponse` with `status="error"` and the message under the
`"error"` data key, so `process` itself never raises. -/
def weatherAgentProcess : AgentWork → AgentResponse
  | .succ blob recs =>
      { agent_name := "weather_agent", status := "completed",
        data := [("weather_data", blob), ("recommendations", recs)],
        next_actions := some ["route_planning"] }
  | .fail m =>
      { agent_name := "weather_agent", status := "error",
        data := [("error", m)] }

-- ---------------- orchestrator.py: plan_trip ----------------

/-- What `plan_trip` returns to its caller: the final workflow state
(`result`), or the `{"error": e, "status": "failed"}` dict built by its
`except` clause. -/
inductive PlanTripResult where
  | result (state : TravelPlanningState)
  | failed (error : String)
  deriving Repr, DecidableEq

/-- `plan_trip(request, thread_id)`.  Its entire body — the initial
`insert_one` of the request, the workflow invocation, and the final
`insert_one` of the orchestration state — sits inside one `try`;
any exception lands in the `except` clause, which returns
`{"error": str(e), "status": "failed"}`.  `requestInsert` and
`stateInsert` give the outcome of the two database writes (`none` =
succeeded, `some e` = raised with message `e`). -/
def plan_trip (beh : Behavior) (request : TripRequest)
    (requestInsert stateInsert : Option String) : PlanTripResult :=
  match requestInsert with
  | some e => .failed e
  | none =>
      let result := ainvoke beh request
      match stateInsert with
      | some e => .failed e
      | none => .result result

/-- The checkpoint key `plan_trip` actually uses:
`thread_id or "default-thread"` (Python `or`, so `None` and the empty
string both fall back to the fixed constant). -/
def effectiveThreadId : Option String → String
  | none => "default-thread"
  | some s => if s = "" then "default-thread" else s

/-- All eight agent stages raise `m`; the summary body itself runs
without raising. -/
def behAgentsFail (m : String) : Behavior :=
  fun k => if k = .summary then .ok (okResp .summary) else .exn m

-- The summary dict always stores `"completed"` under `"status"`.
lemma buildSummary_status (s : TravelPlanningState) :
    dictGet (buildSummary s) "status" = "completed" := rfl

-- When the summary body does not raise, the run stores a report whose
-- status entry is `"completed"`.
lemma run_trip_summary_ok (beh : Behavior) (req : TripRequest)
    (r : AgentResponse) (h : beh .summary = .ok r) :
    ∃ rep, (ainvoke beh req).trip_summary = some rep ∧
      dictGet rep "status" = "completed" := by
  rw [ainvoke_eq, h]
  exact ⟨_, rfl, buildSummary_status _⟩

-- Counting helpers for the stage-count claim.
lemma entry_count (beh : Behavior) :
    ∀ k : Stage, k ≠ Stage.summary →
      (respEntry beh k).toList.length +
        (errEntry beh k).toList.length = 1 := by
  intro k hk
  cases hb : beh k <;> cases k <;>
    simp_all [respEntry, errEntry]

lemma length_filterMap_add (beh : Behavior) (l : List Stage) :
    (l.filterMap (respEntry beh)).length +
        (l.filterMap (errEntry beh)).length =
      (l.map (fun k => (respEntry beh k).toList.length +
        (errEntry beh k).toList.length)).sum := by
  induction l with
  | nil => simp
  | cons a l ih =>
      cases hr : respEntry beh a <;> cases he : errEntry beh a <;>
        simp only [List.filterMap_cons, hr, he, List.map_cons,
          List.sum_cons, List.length_cons, List.length_nil,
          Option.toList_some, Option.toList_none] <;>
        omega

-- ======================= Claim theorems =======================

set_option maxRecDepth 10000

/-- C1 (counterexample): on a run where all nine stage handlers
succeed, `len(agent_responses) + len(errors)` is `8`, not `9` — the
summary node appends to neither list on success. -/
theorem C1_counterexample :
    (ainvoke behAllOk sampleRequest).agent_responses.length +
      (ainvoke behAllOk sampleRequest).errors.length = 8 ∧ (8 : Nat) ≠ 9 := by
  constructor
  · decide
  · decide

/-- C1 (amended): for every run reaching the terminal state,
`len(agent_responses) + len(errors)` equals `8` plus one more exactly
when the summary node's own body raised: each of the eight agent stages
contributes exactly one record to exactly one of the two lists, while
the summary stage contributes an error record only when it raises and
nothing otherwise. -/
theorem C1_stage_count (beh : Behavior) (req : TripRequest) :
    (ainvoke beh req).agent_responses.length +
        (ainvoke beh req).errors.length =
      8 + (match beh .summary with
        | .ok _ => 0
        | .exn _ => 1) := by
  rw [run_responses, run_errors, length_filterMap_add beh pipelineStages]
  simp only [pipelineStages, List.map_cons, List.map_nil, List.sum_cons,
    List.sum_nil]
  have hw := entry_count beh .weather (by simp)
  have hr := entry_count beh .route (by simp)
  have he := entry_count beh .events (by simp)
  have hb := entry_count beh .budget (by simp)
  have hi := entry_count beh .itinerary (by simp)
  have hf := entry_count beh .flights (by simp)
  have ht := entry_count beh .trains (by simp)
  have hc := entry_count beh .calendar (by simp)
  have h9r : respEntry beh Stage.summary = none := by simp [respEntry]
  cases hs : beh .summary with
  | ok r =>
      have h9e : errEntry beh Stage.summary = none := by
        simp [errEntry, hs]
      rw [h9r, h9e]
      simp only [Option.toList_none, List.length_nil]
      omega
  | exn m =>
      have h9e : errEntry beh Stage.summary =
          some (errorLabel Stage.summary ++ m) := by
        simp [errEntry, hs]
      rw [h9r, h9e]
      simp only [Option.toList_some, Option.toList_none,
        List.length_cons, List.length_nil]
      omega

/-- C2: fail-soft execution — whatever each handler does (any subset of
stages may raise), the run visits all nine nodes in pipeline order, the
edge after `trip_summary` is `END`, and the run terminates in the
summary node with `current_step` either `"completed"` or
`"summary_error"`; there is no failed terminal state and an error in
stage `k` never prevents stage `k+1` from being attempted. -/
theorem C2_non_halting (beh : Behavior) (req : TripRequest) :
    visitedNodes beh req =
      ["weather_analysis", "route_planning", "event_discovery",
       "budget_optimization", "itinerary_creation", "flight_search",
       "train_search", "calendar_sync", "trip_summary"] ∧
    nextNode "trip_summary" = none ∧
    ((ainvoke beh req).current_step = "completed" ∨
      (ainvoke beh req).current_step = "summary_error") := by
  refine ⟨?_, rfl, ?_⟩
  · rw [visitedNodes_eq]; rfl
  · rw [run_current_step]
    cases beh .summary <;> simp

/-- C3 (counterexample): when the weather handler throws
`"rate limited"` (all other stages succeeding), `errors` is
`["Weather agent error: rate limited"]`, not
`["weather error: rate limited"]` as the claim states. -/
theorem C3_counterexample :
    (ainvoke (behOneFail .weather "rate limited") sampleRequest).errors =
      ["Weather agent error: rate limited"] ∧
    (["Weather agent error: rate limited"] : List String) ≠
      ["weather error: rate limited"] := by
  constructor
  · decide
  · decide

/-- C3 (amended): for every stage whose handler raises, the node
appends exactly the string `"<Agent label> agent error: <message>"`
(with a capitalised agent label — `"Weather agent error: "`,
`"Maps agent error: "`, …, and `"Summary generation error: "` for the
summary node) to `errors` and sets `current_step` to
`"<stage>_error"`; in particular, when only the weather handler throws
`"rate limited"`, `errors` equals
`["Weather agent error: rate limited"]`. -/
theorem C3_error_record :
    (∀ (k : Stage) (m : String) (s : TravelPlanningState),
      (stageApply k (.exn m) s).errors = s.errors ++ [errorLabel k ++ m] ∧
      (stageApply k (.exn m) s).current_step = stepName k ++ "_error") ∧
    (∀ req : TripRequest,
      (ainvoke (behOneFail .weather "rate limited") req).errors =
        ["Weather agent error: rate limited"]) := by
  constructor
  · intro k m s
    exact ⟨stageApply_errors k (.exn m) s, stageApply_exn_current_step k m s⟩
  · intro req
    rw [run_errors]
    decide

/-- C4 (counterexample): when all nine stage handlers succeed,
`completed_agents` holds the eight agent-registry names — the summary
node appends nothing on success, and the route stage records
`"maps_agent"`, not a stage name — so the list has 8 entries, not 9. -/
theorem C4_counterexample :
    (ainvoke behAllOk sampleRequest).completed_agents =
      ["weather_agent", "maps_agent", "events_agent", "budget_agent",
       "itinerary_agent", "flights_agent", "trains_agent",
       "calendar_agent"] ∧
    (ainvoke behAllOk sampleRequest).completed_agents.length ≠ 9 := by
  constructor
  · decide
  · decide

/-- C4 (amended): for each of the eight agent stages, a successful
handler makes the node overwrite the stage's owned scalar field with
the payload extracted from the response (`response.data.get(key, {})`),
append the response to `agent_responses`, append the stage's
agent-registry name (`"weather_agent"`, `"maps_agent"`, …) to
`completed_agents`, and set `current_step = "<stage>_completed"`; when
all handlers succeed, `completed_agents` holds exactly the eight agent
names in pipeline order and `errors` is empty (the summary node appends
to neither list). -/
theorem C4_success_merge :
    (∀ (k : Stage) (resp : AgentResponse) (s : TravelPlanningState),
      k ≠ Stage.summary →
      ownedField k (stageApply k (.ok resp) s) =
          dictGet resp.data (payloadKey k) ∧
      (stageApply k (.ok resp) s).agent_responses =
          s.agent_responses ++ [resp] ∧
      (stageApply k (.ok resp) s).completed_agents =
          s.completed_agents ++ [agentName k] ∧
      (stageApply k (.ok resp) s).current_step =
          stepName k ++ "_completed") ∧
    (∀ (req : TripRequest) (f : Stage → AgentResponse),
      (ainvoke (fun k => .ok (f k)) req).completed_agents =
        ["weather_agent", "maps_agent", "events_agent", "budget_agent",
         "itinerary_agent", "flights_agent", "trains_agent",
         "calendar_agent"] ∧
      (ainvoke (fun k => .ok (f k)) req).errors = []) := by
  constructor
  · intro k resp s hk
    cases k <;>
      simp_all [stageApply, agentNodeApply, setOwnedField, ownedField,
        stepName, agentName]
  · intro req f
    constructor
    · rw [run_completed]
      simp [pipelineStages, completedEntry, agentName, List.filterMap_cons]
    · rw [run_errors]
      simp [pipelineStages, errEntry, List.filterMap_cons]

/-- C4 witness: the amended success-merge rule applied to the weather
stage on the initial state. -/
theorem C4_success_merge_witness :
    (stageApply .weather (.ok (okResp .weather))
        (initialState sampleRequest)).completed_agents =
      ["weather_agent"] := by
  have h := C4_success_merge.1 .weather (okResp .weather)
    (initialState sampleRequest) (by decide)
  rw [h.2.2.1]
  rfl

/-- C5: frame on stage error — for every stage whose handler raises,
the node leaves every owned scalar field (its own included, typically
still default-empty), the request, `agent_responses`,
`completed_agents` and the stored summary untouched; only `errors`
(exactly one appended record) and `current_step` change.  In the
scenario where only the weather handler raises, `weather_data` is still
the initial empty value at the end of the run and the run still reaches
the terminal summary stage. -/
theorem C5_error_frame :
    (∀ (k : Stage) (m : String) (s : TravelPlanningState),
      (∀ j : Stage,
        ownedField j (stageApply k (.exn m) s) = ownedField j s) ∧
      (stageApply k (.exn m) s).trip_request = s.trip_request ∧
      (stageApply k (.exn m) s).agent_responses = s.agent_responses ∧
      (stageApply k (.exn m) s).completed_agents = s.completed_agents ∧
      (stageApply k (.exn m) s).trip_summary = s.trip_summary ∧
      (stageApply k (.exn m) s).errors = s.errors ++ [errorLabel k ++ m] ∧
      (stageApply k (.exn m) s).current_step = stepName k ++ "_error") ∧
    (∀ (req : TripRequest) (m : String),
      (ainvoke (behOneFail .weather m) req).weather_data = "" ∧
      (ainvoke (behOneFail .weather m) req).current_step = "completed") := by
  constructor
  · intro k m s
    constructor
    · intro j
      cases k <;> cases j <;>
        simp [stageApply, agentNodeApply, summaryNodeApply, ownedField]
    · cases k <;>
        simp [stageApply, agentNodeApply, summaryNodeApply, stepName,
          errorLabel]
  · intro req m
    constructor
    · rw [ainvoke_eq]
      simp [behOneFail, agentNodeApply, summaryNodeApply, setOwnedField,
        okResp, dictGet, initialState]
    · rw [run_current_step]
      simp [behOneFail]

/-- C6 (counterexample): when every stage raises (the summary body
included), the run still reaches the summary node but produces no
report at all: `trip_summary` is absent and `final_status` is
`"error"`, so no `"completed"` status accompanies the nine errors. -/
theorem C6_counterexample :
    (ainvoke (behAllFail "boom") sampleRequest).trip_summary = none ∧
    (ainvoke (behAllFail "boom") sampleRequest).final_status = "error" ∧
    (ainvoke (behAllFail "boom") sampleRequest).errors ≠ [] := by
  refine ⟨by decide, by decide, by decide⟩

/-- C6 (amended): for every run in which the summary node's own body
succeeds, the produced report carries top-level status `"completed"` —
even when all eight agent stages errored, in which case callers observe
`"completed"` together with a non-empty `errors` list; only when the
summary body itself raises is no report produced. -/
theorem C6_always_completed :
    (∀ (beh : Behavior) (req : TripRequest) (r : AgentResponse),
      beh .summary = .ok r →
      ∃ rep, (ainvoke beh req).trip_summary = some rep ∧
        dictGet rep "status" = "completed") ∧
    (∀ (req : TripRequest) (m : String),
      (∃ rep, (ainvoke (behAgentsFail m) req).trip_summary = some rep ∧
        dictGet rep "status" = "completed") ∧
      (ainvoke (behAgentsFail m) req).errors ≠ []) := by
  constructor
  · intro beh req r h
    exact run_trip_summary_ok beh req r h
  · intro req m
    constructor
    · exact run_trip_summary_ok (behAgentsFail m) req (okResp .summary) rfl
    · rw [run_errors]
      simp [pipelineStages, errEntry, behAgentsFail, errorLabel,
        List.filterMap_cons]

/-- C6 witness: the amended statement evaluated on the all-successful
run. -/
theorem C6_always_completed_witness :
    ∃ rep, (ainvoke behAllOk sampleRequest).trip_summary = some rep ∧
      dictGet rep "status" = "completed" :=
  C6_always_completed.1 behAllOk sampleRequest (okResp .summary) rfl

/-- C7: fixed linear pipeline order — every run visits the nine
registered nodes exactly once (the visit list equals the pipeline list
and has no duplicates), in the order weather, route, events, budget,
itinerary, flights, trains, calendar, summary; no node follows
`trip_summary`; and the records accumulated in `agent_responses` and
`errors` are each stage's contribution in exactly this pipeline
order. -/
theorem C7_pipeline_order (beh : Behavior) (req : TripRequest) :
    visitedNodes beh req = pipelineStages.map nodeName ∧
    pipelineStages.map nodeName =
      ["weather_analysis", "route_planning", "event_discovery",
       "budget_optimization", "itinerary_creation", "flight_search",
       "train_search", "calendar_sync", "trip_summary"] ∧
    (pipelineStages.map nodeName).Nodup ∧
    nextNode (nodeName .summary) = none ∧
    (ainvoke beh req).agent_responses =
      pipelineStages.filterMap (respEntry beh) ∧
    (ainvoke beh req).errors = pipelineStages.filterMap (errEntry beh) :=
  ⟨visitedNodes_eq beh req, by decide, by decide, rfl,
    run_responses beh req, run_errors beh req⟩

/-- C8: a handler that catches its own failure and returns a normal
`AgentResponse` with `status = "error"` (as `WeatherAgent.process`
does) is recorded by the executor as a success: the agent name is
appended to `completed_agents`, `current_step` becomes
`"weather_completed"`, nothing is appended to `errors`, the error
response itself lands in `agent_responses`, and the owned scalar gets
the default empty payload; the executor's error branch is reached only
when the `process` call itself raises. -/
theorem C8_self_caught_error (m : String) (w : AgentWork)
    (s : TravelPlanningState) :
    (weatherAgentProcess (.fail m)).status = "error" ∧
    (stageApply .weather (.ok (weatherAgentProcess (.fail m)))
        s).completed_agents = s.completed_agents ++ ["weather_agent"] ∧
    (stageApply .weather (.ok (weatherAgentProcess (.fail m)))
        s).current_step = "weather_completed" ∧
    (stageApply .weather (.ok (weatherAgentProcess (.fail m)))
        s).errors = s.errors ∧
    (stageApply .weather (.ok (weatherAgentProcess (.fail m)))
        s).agent_responses =
      s.agent_responses ++ [weatherAgentProcess (.fail m)] ∧
    (stageApply .weather (.ok (weatherAgentProcess (.fail m)))
        s).weather_data = "" ∧
    (stageApply .weather (.ok (weatherAgentProcess w)) s).errors =
      s.errors := by
  refine ⟨rfl, rfl, rfl, rfl, rfl, rfl, ?_⟩
  cases w <;> rfl

/-- C9 (counterexample): with every stage succeeding, if the final
`insert_one` of the orchestration state raises, `plan_trip` returns the
`{"error", "status": "failed"}` object instead of the computed
result. -/
theorem C9_counterexample :
    plan_trip behAllOk sampleRequest none (some "db write failed") =
      .failed "db write failed" ∧
    PlanTripResult.failed "db write failed" ≠
      .result (ainvoke behAllOk sampleRequest) := by
  exact ⟨rfl, by simp⟩

/-- C9 (amended): a failing persistence write of the final state is
caught by `plan_trip`'s blanket `except` clause, which discards the
successfully computed result and returns
`{"error": <message>, "status": "failed"}` — the persistence failure
masks the successful plan; only when both database writes succeed is
the computed result returned. -/
theorem C9_persistence_masks (beh : Behavior) (req : TripRequest)
    (e : String) :
    plan_trip beh req none (some e) = .failed e ∧
    plan_trip beh req none none = .result (ainvoke beh req) :=
  ⟨rfl, rfl⟩

/-- C10 (counterexample): when the caller passes no thread id (or an
empty one), the key used is the fixed constant `"default-thread"` — two
runs started without explicit identifiers therefore share the same key
rather than getting distinct fresh identifiers. -/
theorem C10_counterexample :
    effectiveThreadId none = "default-thread" ∧
    effectiveThreadId (some "") = "default-thread" :=
  ⟨rfl, rfl⟩

/-- C10 (amended): `plan_trip` substitutes the fixed identifier
`"default-thread"` whenever the thread id is absent or empty (Python
`thread_id or "default-thread"`), so all runs started without an
explicit identifier use one shared key; an explicit non-empty
identifier is used unchanged. -/
theorem C10_default_thread :
    (∀ t : Option String, (t = none ∨ t = some "") →
      effectiveThreadId t = "default-thread") ∧
    (∀ s : String, s ≠ "" → effectiveThreadId (some s) = s) := by
  constructor
  · rintro t (rfl | rfl)
    · rfl
    · rfl
  · intro s hs
    simp [effectiveThreadId, hs]

/-- C10 witness: the amended rule evaluated at an absent id and at the
explicit id `"A"`. -/
theorem C10_default_thread_witness :
    effectiveThreadId none = "default-thread" ∧
    effectiveThreadId (some "A") = "A" :=
  ⟨C10_default_thread.1 none (Or.inl rfl),
   C10_default_thread.2 "A" (by decide)⟩

end GlobeSync
